import Mathlib

/-!
Verification development for the Delta Lake connector
(`python/pathway/io/deltalake/__init__.py`).

The connector exposes two operations: `read`, which turns a Delta Lake
location into an append-only stream of row additions, and `write`, which
registers a sink writing a table's change stream (columns plus the reserved
`time` and `diff` metadata columns) to the location.  Storage-location
classification is a pure prefix test on the URI.  Collaborator functions that
live in other modules of the repository (`_check_entitlements`,
`read_schema`, `internal_connector_mode`, `_format_output_value_fields`,
`AwsS3Settings`) are modelled from the specification; each such definition
says so in its doc comment.  Everything else is a direct translation of the
connector source.
-/

/-- Python's `str.startswith(prefix)`: a pure prefix test on the
character sequence of the string. -/
def startsWithStr (s p : String) : Bool := p.data.isPrefixOf s.data

/-- Source line 18: the S3 URI marker constant, the string "s3://". -/
def S3_URI_PREFIX : String := "s3://"

/-- Errors surfaced by the connector. -/
inductive ConnectorError where
  | ConfigurationError (msg : String)
  | SchemaError (msg : String)
  | EntitlementError (feature : String)
  deriving DecidableEq, Repr

deriving instance DecidableEq for Except

namespace DeltaLake

/-- Modelled from the spec: `_check_entitlements` lives in
`pathway.internals.config`, outside this source slice.  The spec (§9) models
it as a precondition gate: the operation proceeds only when the ambient
license carries the required feature, and aborts otherwise. -/
def _check_entitlements (license : List String) (feature : String) :
    Except ConnectorError Unit :=
  if license.contains feature then Except.ok ()
  else Except.error (ConnectorError.EntitlementError feature)

/-- Modelled from the spec: `internal_connector_mode` lives in
`pathway.io._utils`, outside this source slice.  Per the spec (§3 ReadMode),
the mode string selects Streaming or Static polling. -/
inductive ConnectorMode where
  | Streaming
  | Static
  deriving DecidableEq, Repr

/-- Modelled from the spec: translation of the user-facing mode string into
the engine's connector mode, rejecting anything but the two documented
values (`pathway.io._utils.internal_connector_mode`, outside this slice). -/
def internal_connector_mode (mode : String) : Except ConnectorError ConnectorMode :=
  if mode = "streaming" then Except.ok ConnectorMode.Streaming
  else if mode = "static" then Except.ok ConnectorMode.Static
  else Except.error (ConnectorError.ConfigurationError "unknown connector mode")

/-- `api.DataStorage`: the storage configuration handed to the engine.
`read` fills `mode`/`persistent_id` (lines 111-116); `write` fills
`storage_options`/`min_commit_frequency` (lines 223-228). -/
structure DataStorage where
  storage_type : String
  path : String
  mode : Option ConnectorMode
  persistent_id : Option String
  storage_options : List (String × String)
  min_commit_frequency : Option Nat
  deriving DecidableEq, Repr

/-- `api.DataFormat`: the format descriptor (lines 117-120 and 229-233). -/
structure DataFormat where
  format_type : String
  key_field_names : Option (List String)
  value_fields : List String
  deriving DecidableEq, Repr

/-- `datasource.DataSourceOptions` (lines 122-124). -/
structure DataSourceOptions where
  commit_duration_ms : Option Nat
  deriving DecidableEq, Repr

/-- `datasource.GenericDataSource` (lines 126-133). -/
structure GenericDataSource where
  datastorage : DataStorage
  dataformat : DataFormat
  data_source_options : DataSourceOptions
  datasource_name : String
  append_only : Bool
  deriving DecidableEq, Repr

/-- The table produced by `read`: in the embedding we retain the data source
handed to `table_from_datasource` (line 125). -/
structure ReadResult where
  datasource : GenericDataSource
  deriving DecidableEq, Repr

/-- The sink registered by `write` via `table.to(datasink.GenericDataSink ...)`
(lines 235-241): its storage and format configuration. -/
structure WriteResult where
  data_storage : DataStorage
  data_format : DataFormat
  datasink_name : String
  deriving DecidableEq, Repr

/-- `pathway.io.s3.AwsS3Settings` (outside this source slice): the explicit
S3 connection settings object, per the spec an options record with access
key, secret access key, custom endpoint, region and bucket. -/
structure AwsS3Settings where
  bucket_name : Option String
  access_key : Option String
  secret_access_key : Option String
  endpoint : Option String
  region : Option String
  deriving DecidableEq, Repr

/-- Ambient credentials available to the discovery mechanism
(spec §6 `discoverAmbientCredentials() -> options map | NotFound`):
`none` models NotFound. -/
def AmbientCredentials : Type := Option (String × String)

/-- Modelled from the spec: the bucket component of an S3 URI, i.e. what
stands between the scheme marker and the next slash. -/
def bucketOfUri (uri : String) : String :=
  String.mk ((uri.data.drop S3_URI_PREFIX.data.length).takeWhile (fun c => c ≠ '/'))

/-- Modelled from the spec: `AwsS3Settings.new_from_path` lives in
`pathway.io.s3`, outside this source slice.  Per the spec (§4.1, §7) it
derives the bucket from the URI and default credentials from ambient
discovery, failing with `ConfigurationError` when the URI is malformed or
when no ambient credentials can be discovered and none were supplied. -/
def AwsS3Settings.new_from_path (uri : String) (ambient : AmbientCredentials) :
    Except ConnectorError AwsS3Settings :=
  if bucketOfUri uri = "" then
    Except.error (ConnectorError.ConfigurationError "malformed URI: no bucket")
  else
    match ambient with
    | none =>
        Except.error (ConnectorError.ConfigurationError "credentials could not be resolved")
    | some ak_sk =>
        Except.ok
          { bucket_name := some (bucketOfUri uri)
            access_key := some ak_sk.1
            secret_access_key := some ak_sk.2
            endpoint := none
            region := none }

/-- Modelled from the spec: `AwsS3Settings.as_deltalake_storage_options`
lives in `pathway.io.s3`, outside this source slice.  Per the spec (§4.1) it
assembles the settings' present fields into an opaque options map passed to
the storage service. -/
def AwsS3Settings.as_deltalake_storage_options (s : AwsS3Settings) :
    List (String × String) :=
  (match s.access_key with
   | some k => [("aws_access_key_id", k)]
   | none => []) ++
  (match s.secret_access_key with
   | some k => [("aws_secret_access_key", k)]
   | none => []) ++
  (match s.endpoint with
   | some e => [("endpoint_url", e)]
   | none => []) ++
  (match s.region with
   | some r => [("aws_region", r)]
   | none => [])

/-- Modelled from the spec: `_format_output_value_fields` lives in
`pathway.internals._io_helpers`, outside this source slice.  Per the spec
(§4.2, write direction) it produces the value-field list equal to the
table's columns plus the reserved metadata columns `time` and `diff`, and
fails with `SchemaError` when a column is already literally named `time` or
`diff` (reserved-name collision). -/
def _format_output_value_fields (tableColumns : List String) :
    Except ConnectorError (List String) :=
  if tableColumns.contains "time" then
    Except.error (ConnectorError.SchemaError "reserved column name: time")
  else if tableColumns.contains "diff" then
    Except.error (ConnectorError.SchemaError "reserved column name: diff")
  else
    Except.ok (tableColumns ++ ["time", "diff"])

/-- The storage kind the spec calls `StorageLocation.kind`. -/
inductive StorageKind where
  | ObjectStore
  | Filesystem
  deriving DecidableEq, Repr

/-- The classification implicit in `write` (source lines 217-218): the S3
branch is taken exactly when the URI starts with S3_URI_PREFIX. -/
def classifyUri (uri : String) : StorageKind :=
  if startsWithStr uri S3_URI_PREFIX then StorageKind.ObjectStore
  else StorageKind.Filesystem

/-- Source lines 217-221: the options start out empty; if the URI starts
with S3_URI_PREFIX, fall back to `AwsS3Settings.new_from_path` on the URI
when no explicit settings were supplied, then take the settings'
`as_deltalake_storage_options`. -/
def resolveStorageOptions (uri : String)
    (s3_connection_settings : Option AwsS3Settings)
    (ambient : AmbientCredentials) :
    Except ConnectorError (List (String × String)) :=
  if startsWithStr uri S3_URI_PREFIX then
    match s3_connection_settings with
    | none =>
        (AwsS3Settings.new_from_path uri ambient).map
          (fun s => s.as_deltalake_storage_options)
    | some s => Except.ok s.as_deltalake_storage_options
  else
    Except.ok []

/-- Default of `autocommit_duration_ms` in `read`'s signature
(source line 28). -/
def read_autocommit_duration_ms_default : Option Nat := some 1500

/-- Default of `min_commit_frequency` in `write`'s signature
(source line 145). -/
def write_min_commit_frequency_default : Option Nat := some 60000

/-- `write` (source lines 140-241).  `license` and `ambient` model the
ambient entitlement state and the credential-discovery environment; `table`
is the written table's column list.  The result is the configuration of the
registered sink; an error means the operation aborted with no sink
registered. -/
def write (license : List String) (ambient : AmbientCredentials)
    (table : List String) (uri : String)
    (s3_connection_settings : Option AwsS3Settings)
    (min_commit_frequency : Option Nat) :
    Except ConnectorError WriteResult := do
  _check_entitlements license "deltalake"
  let storage_options ← resolveStorageOptions uri s3_connection_settings ambient
  let data_storage : DataStorage :=
    { storage_type := "deltalake"
      path := uri
      mode := none
      persistent_id := none
      storage_options := storage_options
      min_commit_frequency := min_commit_frequency }
  let value_fields ← _format_output_value_fields table
  let data_format : DataFormat :=
    { format_type := "identity"
      key_field_names := none
      value_fields := value_fields }
  Except.ok
    { data_storage := data_storage
      data_format := data_format
      datasink_name := "deltalake" }

/-- `read` (source lines 23-135).  `license` models the ambient entitlement
state; `schema` is the declared column list (the `read_schema` helper of
`pathway.io._utils`, outside this slice, passes the declared columns through
unchanged per the spec's transparent read format, §4.2).  The result is the
data source handed to `table_from_datasource`; an error means no table was
produced. -/
def read (license : List String) (uri : String) (schema : List String)
    (mode : String) (autocommit_duration_ms : Option Nat)
    (persistent_id : Option String) :
    Except ConnectorError ReadResult := do
  _check_entitlements license "deltalake"
  let m ← internal_connector_mode mode
  let data_storage : DataStorage :=
    { storage_type := "deltalake"
      path := uri
      mode := some m
      persistent_id := persistent_id
      storage_options := []
      min_commit_frequency := none }
  let data_format : DataFormat :=
    { format_type := "transparent"
      key_field_names := none
      value_fields := schema }
  let data_source_options : DataSourceOptions :=
    { commit_duration_ms := autocommit_duration_ms }
  Except.ok
    { datasource :=
        { datastorage := data_storage
          dataformat := data_format
          data_source_options := data_source_options
          datasource_name := "deltalake"
          append_only := true } }

/-- A change event delivered to the engine: a row payload and a diff. -/
structure ChangeEvent where
  values : List (String × String)
  diff : Int
  deriving DecidableEq, Repr

/-- Modelled from the spec: the engine's ingestion of a data source
(`table_from_datasource`, outside this slice).  Physical rows arrive with a
stored diff; for an append-only source every physical row is wrapped as an
addition with `diff = +1` (spec §3 ChangeEvent, read path), otherwise the
stored diff is passed through. -/
def sourceEvents (src : GenericDataSource)
    (rows : List (List (String × String) × Int)) : List ChangeEvent :=
  if src.append_only then
    rows.map (fun r => { values := r.1, diff := 1 })
  else
    rows.map (fun r => { values := r.1, diff := r.2 })

/-- Modelled from the spec: a `None` commit interval means the engine
flushes/commits each finalized batch as soon as possible (spec §3
CommitConfig, both sides). -/
def commitAsSoonAsPossible (interval : Option Nat) : Bool := interval.isNone


/-! Helper lemmas shared by the claim theorems. -/

theorem check_entitlements_ok (license : List String)
    (h : "deltalake" ∈ license) :
    _check_entitlements license "deltalake" = Except.ok () := by
  simp [_check_entitlements, h]

theorem check_entitlements_err (license : List String)
    (h : "deltalake" ∉ license) :
    _check_entitlements license "deltalake" =
      Except.error (ConnectorError.EntitlementError "deltalake") := by
  simp [_check_entitlements, h]

theorem write_unfold (license : List String) (ambient : AmbientCredentials)
    (table : List String) (uri : String) (s : Option AwsS3Settings)
    (mcf : Option Nat) :
    write license ambient table uri s mcf =
      match _check_entitlements license "deltalake" with
      | Except.error e => Except.error e
      | Except.ok _ =>
        match resolveStorageOptions uri s ambient with
        | Except.error e => Except.error e
        | Except.ok opts =>
          match _format_output_value_fields table with
          | Except.error e => Except.error e
          | Except.ok vf =>
            Except.ok
              { data_storage :=
                  { storage_type := "deltalake", path := uri, mode := none,
                    persistent_id := none, storage_options := opts,
                    min_commit_frequency := mcf }
                data_format :=
                  { format_type := "identity", key_field_names := none,
                    value_fields := vf }
                datasink_name := "deltalake" } := by
  unfold write
  cases _check_entitlements license "deltalake" with
  | error e => rfl
  | ok u =>
    cases resolveStorageOptions uri s ambient with
    | error e => rfl
    | ok opts =>
      cases _format_output_value_fields table with
      | error e => rfl
      | ok vf => rfl

theorem read_unfold (license : List String) (uri : String)
    (schema : List String) (mode : String) (acd : Option Nat)
    (pid : Option String) :
    read license uri schema mode acd pid =
      match _check_entitlements license "deltalake" with
      | Except.error e => Except.error e
      | Except.ok _ =>
        match internal_connector_mode mode with
        | Except.error e => Except.error e
        | Except.ok m =>
          Except.ok
            { datasource :=
                { datastorage :=
                    { storage_type := "deltalake", path := uri, mode := some m,
                      persistent_id := pid, storage_options := [],
                      min_commit_frequency := none }
                  dataformat :=
                    { format_type := "transparent", key_field_names := none,
                      value_fields := schema }
                  data_source_options := { commit_duration_ms := acd }
                  datasource_name := "deltalake"
                  append_only := true } } := by
  unfold read
  cases _check_entitlements license "deltalake" with
  | error e => rfl
  | ok u =>
    cases internal_connector_mode mode with
    | error e => rfl
    | ok m => rfl

theorem format_output_ok (cols vf : List String)
    (h : _format_output_value_fields cols = Except.ok vf) :
    vf = cols ++ ["time", "diff"] := by
  unfold _format_output_value_fields at h
  by_cases ht : "time" ∈ cols
  · simp [ht] at h
  · by_cases hd : "diff" ∈ cols
    · simp [ht, hd] at h
    · simp [ht, hd] at h
      exact h.symm

theorem resolveStorageOptions_fs (uri : String) (s : Option AwsS3Settings)
    (ambient : AmbientCredentials)
    (h : startsWithStr uri S3_URI_PREFIX = false) :
    resolveStorageOptions uri s ambient = Except.ok [] := by
  simp [resolveStorageOptions, h]

theorem resolveStorageOptions_explicit (uri : String) (s : AwsS3Settings)
    (ambient : AmbientCredentials)
    (h : startsWithStr uri S3_URI_PREFIX = true) :
    resolveStorageOptions uri (some s) ambient =
      Except.ok s.as_deltalake_storage_options := by
  simp [resolveStorageOptions, h]

theorem resolveStorageOptions_discovery (uri : String)
    (ambient : AmbientCredentials)
    (h : startsWithStr uri S3_URI_PREFIX = true) :
    resolveStorageOptions uri none ambient =
      (AwsS3Settings.new_from_path uri ambient).map
        (fun t => t.as_deltalake_storage_options) := by
  simp [resolveStorageOptions, h]

theorem new_from_path_no_ambient (uri : String) :
    AwsS3Settings.new_from_path uri none =
      Except.error (ConnectorError.ConfigurationError "malformed URI: no bucket") ∨
    AwsS3Settings.new_from_path uri none =
      Except.error
        (ConnectorError.ConfigurationError "credentials could not be resolved") := by
  unfold AwsS3Settings.new_from_path
  by_cases h : bucketOfUri uri = ""
  · rw [if_pos h]
    exact Or.inl rfl
  · rw [if_neg h]
    exact Or.inr rfl

/-! Claim theorems. -/

/-- Claim C1, code evaluated at the failing input "s3a://bucket/path": the
claim (and the write docstring, source lines 152-153) says URIs beginning
with "s3://" or "s3a://" are classified as ObjectStore, but the only test in
the code (source line 218) is against S3_URI_PREFIX = "s3://", so an
"s3a://" URI is classified as Filesystem, the S3 branch is skipped, the
supplied explicit S3 settings are ignored and the options map stays
empty. -/
theorem s3a_uri_classified_as_filesystem :
    classifyUri "s3a://bucket/path" = StorageKind.Filesystem ∧
    startsWithStr "s3a://bucket/path" "s3a://" = true ∧
    (write ["deltalake"] none ["key"] "s3a://bucket/path"
        (some { bucket_name := some "bucket", access_key := some "AK",
                secret_access_key := some "SK", endpoint := none,
                region := none })
        (some 60000)).map (fun r => r.data_storage.storage_options) =
      Except.ok [] := by
  decide

/-- Claim C2: for every table whose column set contains a column literally
named "time" or literally named "diff", constructing the write-side format
descriptor fails with SchemaError, regardless of the other columns present;
consequently a write whose earlier stages succeed fails with SchemaError. -/
theorem reserved_column_name_schema_error (cols : List String)
    (h : "time" ∈ cols ∨ "diff" ∈ cols) :
    (∃ msg, _format_output_value_fields cols =
      Except.error (ConnectorError.SchemaError msg)) ∧
    ∀ license ambient uri s mcf opts,
      "deltalake" ∈ license →
      resolveStorageOptions uri s ambient = Except.ok opts →
      ∃ msg, write license ambient cols uri s mcf =
        Except.error (ConnectorError.SchemaError msg) := by
  have hfmt : ∃ msg, _format_output_value_fields cols =
      Except.error (ConnectorError.SchemaError msg) := by
    unfold _format_output_value_fields
    by_cases ht : "time" ∈ cols
    · exact ⟨"reserved column name: time", by simp [ht]⟩
    · have hd : "diff" ∈ cols := by
        rcases h with h | h
        · exact absurd h ht
        · exact h
      exact ⟨"reserved column name: diff", by simp [ht, hd]⟩
  refine ⟨hfmt, ?_⟩
  intro license ambient uri s mcf opts hlic hres
  obtain ⟨msg, hmsg⟩ := hfmt
  exact ⟨msg, by simp [write_unfold, check_entitlements_ok license hlic, hres, hmsg]⟩

/-- Witness for claim C2 at the concrete table ["key", "time"]. -/
theorem reserved_column_name_schema_error_witness :
    ("time" ∈ ["key", "time"] ∨ "diff" ∈ ["key", "time"]) ∧
    ∃ msg, _format_output_value_fields ["key", "time"] =
      Except.error (ConnectorError.SchemaError msg) :=
  ⟨Or.inl (by decide),
   (reserved_column_name_schema_error ["key", "time"] (Or.inl (by decide))).1⟩

/-- Claim C3: for every URI beginning with "s3://", if no explicit S3
connection settings are supplied and ambient credentials cannot be
discovered, write fails with ConfigurationError: no sink configuration is
produced, so no storage call is attempted. -/
theorem missing_credentials_configuration_error
    (license table : List String) (uri : String) (mcf : Option Nat)
    (hlic : "deltalake" ∈ license)
    (hs3 : startsWithStr uri S3_URI_PREFIX = true) :
    ∃ msg, write license none table uri none mcf =
      Except.error (ConnectorError.ConfigurationError msg) := by
  rcases new_from_path_no_ambient uri with hnf | hnf
  · exact ⟨"malformed URI: no bucket",
      by simp [write_unfold, check_entitlements_ok license hlic,
        resolveStorageOptions_discovery uri none hs3, hnf, Except.map]⟩
  · exact ⟨"credentials could not be resolved",
      by simp [write_unfold, check_entitlements_ok license hlic,
        resolveStorageOptions_discovery uri none hs3, hnf, Except.map]⟩

/-- Witness for claim C3 at the concrete URI "s3://bucket/path". -/
theorem missing_credentials_configuration_error_witness :
    ("deltalake" ∈ ["deltalake"] ∧
     startsWithStr "s3://bucket/path" S3_URI_PREFIX = true) ∧
    ∃ msg, write ["deltalake"] none ["key"] "s3://bucket/path" none (some 60000) =
      Except.error (ConnectorError.ConfigurationError msg) :=
  ⟨⟨by decide, by decide⟩,
   missing_credentials_configuration_error ["deltalake"] ["key"] "s3://bucket/path"
     (some 60000) (by decide) (by decide)⟩

/-- Claim C4: for every URI beginning with "s3://", explicit S3 connection
settings drive the options map handed to the storage service — the result
equals the explicit settings' options and does not depend on the ambient
credential environment — while URI-based discovery is consulted exactly when
the explicit settings are absent. -/
theorem explicit_settings_override_discovery
    (uri : String) (s : AwsS3Settings) (ambient ambient2 : AmbientCredentials)
    (hs3 : startsWithStr uri S3_URI_PREFIX = true) :
    resolveStorageOptions uri (some s) ambient =
      Except.ok s.as_deltalake_storage_options ∧
    resolveStorageOptions uri (some s) ambient =
      resolveStorageOptions uri (some s) ambient2 ∧
    resolveStorageOptions uri none ambient =
      (AwsS3Settings.new_from_path uri ambient).map
        (fun t => t.as_deltalake_storage_options) ∧
    ∀ license table mcf r,
      write license ambient table uri (some s) mcf = Except.ok r →
      r.data_storage.storage_options = s.as_deltalake_storage_options := by
  refine ⟨resolveStorageOptions_explicit uri s ambient hs3, ?_,
    resolveStorageOptions_discovery uri ambient hs3, ?_⟩
  · rw [resolveStorageOptions_explicit uri s ambient hs3,
      resolveStorageOptions_explicit uri s ambient2 hs3]
  · intro license table mcf r hr
    rw [write_unfold] at hr
    cases hc : _check_entitlements license "deltalake" with
    | error e => simp [hc] at hr
    | ok u =>
      cases hf : _format_output_value_fields table with
      | error e =>
        simp [hc, resolveStorageOptions_explicit uri s ambient hs3, hf] at hr
      | ok vf =>
        simp [hc, resolveStorageOptions_explicit uri s ambient hs3, hf] at hr
        subst hr
        rfl

/-- Witness for claim C4 at the concrete URI "s3://logs/access-log/". -/
theorem explicit_settings_override_discovery_witness :
    startsWithStr "s3://logs/access-log/" S3_URI_PREFIX = true ∧
    resolveStorageOptions "s3://logs/access-log/"
        (some { bucket_name := some "logs", access_key := some "AK",
                secret_access_key := some "SK", endpoint := none,
                region := some "eu-west-3" }) none =
      Except.ok
        (AwsS3Settings.as_deltalake_storage_options
          { bucket_name := some "logs", access_key := some "AK",
            secret_access_key := some "SK", endpoint := none,
            region := some "eu-west-3" }) :=
  ⟨by decide,
   (explicit_settings_override_discovery "s3://logs/access-log/"
     { bucket_name := some "logs", access_key := some "AK",
       secret_access_key := some "SK", endpoint := none,
       region := some "eu-west-3" } none none (by decide)).1⟩

/-- Claim C5: for every table, the write-side format descriptor declares no
key fields and a value-field list equal to the table's columns plus the two
reserved metadata columns "time" and "diff". -/
theorem write_format_no_keys_and_value_fields (license : List String)
    (ambient : AmbientCredentials) (table : List String) (uri : String)
    (s : Option AwsS3Settings) (mcf : Option Nat) (r : WriteResult)
    (h : write license ambient table uri s mcf = Except.ok r) :
    r.data_format.key_field_names = none ∧
    r.data_format.value_fields = table ++ ["time", "diff"] := by
  rw [write_unfold] at h
  cases hc : _check_entitlements license "deltalake" with
  | error e => simp [hc] at h
  | ok u =>
    cases hrs : resolveStorageOptions uri s ambient with
    | error e => simp [hc, hrs] at h
    | ok opts =>
      cases hf : _format_output_value_fields table with
      | error e => simp [hc, hrs, hf] at h
      | ok vf =>
        have hvf : vf = table ++ ["time", "diff"] := format_output_ok table vf hf
        simp [hc, hrs, hf] at h
        subst h
        exact ⟨rfl, hvf⟩

/-- Witness for claim C5 at the concrete table ["key", "value"]. -/
theorem write_format_no_keys_and_value_fields_witness :
    ∃ r, write ["deltalake"] none ["key", "value"] "./local-lake" none
        (some 60000) = Except.ok r ∧
      r.data_format.key_field_names = none ∧
      r.data_format.value_fields = ["key", "value"] ++ ["time", "diff"] :=
  ⟨{ data_storage :=
       { storage_type := "deltalake", path := "./local-lake", mode := none,
         persistent_id := none, storage_options := [],
         min_commit_frequency := some 60000 }
     data_format :=
       { format_type := "identity", key_field_names := none,
         value_fields := ["key", "value"] ++ ["time", "diff"] }
     datasink_name := "deltalake" },
   by decide,
   write_format_no_keys_and_value_fields ["deltalake"] none ["key", "value"]
     "./local-lake" none (some 60000) _ (by decide)⟩

/-- Claim C6: the table produced by read is append-only — the data source is
registered with the append-only flag, every physically read row is wrapped
as an addition with diff = +1, and no deletion event is emitted on the read
path. -/
theorem read_append_only_diff_plus_one (license : List String) (uri : String)
    (schema : List String) (mode : String) (acd : Option Nat)
    (pid : Option String) (r : ReadResult)
    (h : read license uri schema mode acd pid = Except.ok r) :
    r.datasource.append_only = true ∧
    ∀ rows, sourceEvents r.datasource rows =
        rows.map (fun row => { values := row.1, diff := 1 }) ∧
      ∀ e ∈ sourceEvents r.datasource rows, e.diff = 1 := by
  have hao : r.datasource.append_only = true := by
    rw [read_unfold] at h
    cases hc : _check_entitlements license "deltalake" with
    | error e => simp [hc] at h
    | ok u =>
      cases hm : internal_connector_mode mode with
      | error e => simp [hc, hm] at h
      | ok m =>
        simp [hc, hm] at h
        subst h
        rfl
  refine ⟨hao, fun rows => ?_⟩
  have hev : sourceEvents r.datasource rows =
      rows.map (fun row => { values := row.1, diff := 1 }) := by
    simp [sourceEvents, hao]
  refine ⟨hev, ?_⟩
  intro e he
  rw [hev] at he
  obtain ⟨row, _, hrow⟩ := List.mem_map.1 he
  rw [← hrow]

/-- Witness for claim C6 at a concrete static read. -/
theorem read_append_only_diff_plus_one_witness :
    ∃ r, read ["deltalake"] "./local-lake" ["key", "value"] "static"
        (some 1500) none = Except.ok r ∧
      r.datasource.append_only = true :=
  ⟨{ datasource :=
       { datastorage :=
           { storage_type := "deltalake", path := "./local-lake",
             mode := some ConnectorMode.Static, persistent_id := none,
             storage_options := [], min_commit_frequency := none }
         dataformat :=
           { format_type := "transparent", key_field_names := none,
             value_fields := ["key", "value"] }
         data_source_options := { commit_duration_ms := some 1500 }
         datasource_name := "deltalake"
         append_only := true } },
   by decide,
   (read_append_only_diff_plus_one ["deltalake"] "./local-lake" ["key", "value"]
     "static" (some 1500) none _ (by decide)).1⟩

/-- Claim C7: omitting the commit-interval parameters means using the
signature defaults — 1500 ms for read's autocommit interval (source line 28)
and 60000 ms for write's minimum commit interval (source line 145) — and
those defaults flow unchanged into the produced configurations; passing none
for either interval means flush/commit each finalized batch as soon as
possible. -/
theorem commit_interval_defaults :
    read_autocommit_duration_ms_default = some 1500 ∧
    write_min_commit_frequency_default = some 60000 ∧
    (∀ license uri schema mode pid r,
        read license uri schema mode read_autocommit_duration_ms_default pid =
          Except.ok r →
        r.datasource.data_source_options.commit_duration_ms = some 1500) ∧
    (∀ license ambient table uri s r,
        write license ambient table uri s write_min_commit_frequency_default =
          Except.ok r →
        r.data_storage.min_commit_frequency = some 60000) ∧
    (∀ interval : Option Nat,
        commitAsSoonAsPossible interval = true ↔ interval = none) := by
  refine ⟨rfl, rfl, ?_, ?_, ?_⟩
  · intro license uri schema mode pid r h
    rw [read_unfold] at h
    cases hc : _check_entitlements license "deltalake" with
    | error e => simp [hc] at h
    | ok u =>
      cases hm : internal_connector_mode mode with
      | error e => simp [hc, hm] at h
      | ok m =>
        simp [hc, hm] at h
        subst h
        rfl
  · intro license ambient table uri s r h
    rw [write_unfold] at h
    cases hc : _check_entitlements license "deltalake" with
    | error e => simp [hc] at h
    | ok u =>
      cases hrs : resolveStorageOptions uri s ambient with
      | error e => simp [hc, hrs] at h
      | ok opts =>
        cases hf : _format_output_value_fields table with
        | error e => simp [hc, hrs, hf] at h
        | ok vf =>
          simp [hc, hrs, hf] at h
          subst h
          rfl
  · intro interval
    cases interval <;> simp [commitAsSoonAsPossible]

/-- Witness for claim C7 at concrete read and write calls using the
signature defaults. -/
theorem commit_interval_defaults_witness :
    (∃ r, read ["deltalake"] "./local-lake" ["key"] "streaming"
        read_autocommit_duration_ms_default none = Except.ok r ∧
      r.datasource.data_source_options.commit_duration_ms = some 1500) ∧
    (∃ r, write ["deltalake"] none ["key"] "./local-lake" none
        write_min_commit_frequency_default = Except.ok r ∧
      r.data_storage.min_commit_frequency = some 60000) ∧
    (commitAsSoonAsPossible none = true ↔ (none : Option Nat) = none) :=
  ⟨⟨{ datasource :=
        { datastorage :=
            { storage_type := "deltalake", path := "./local-lake",
              mode := some ConnectorMode.Streaming, persistent_id := none,
              storage_options := [], min_commit_frequency := none }
          dataformat :=
            { format_type := "transparent", key_field_names := none,
              value_fields := ["key"] }
          data_source_options := { commit_duration_ms := some 1500 }
          datasource_name := "deltalake"
          append_only := true } },
    by decide,
    commit_interval_defaults.2.2.1 ["deltalake"] "./local-lake" ["key"]
      "streaming" none _ (by decide)⟩,
   ⟨{ data_storage :=
        { storage_type := "deltalake", path := "./local-lake", mode := none,
          persistent_id := none, storage_options := [],
          min_commit_frequency := some 60000 }
      data_format :=
        { format_type := "identity", key_field_names := none,
          value_fields := ["key", "time", "diff"] }
      datasink_name := "deltalake" },
    by decide,
    commit_interval_defaults.2.2.2.1 ["deltalake"] none ["key"] "./local-lake"
      none _ (by decide)⟩,
   commit_interval_defaults.2.2.2.2 none⟩

/-- Claim C8 as stated is refuted at a concrete input: two write invocations
with the same URI "./local-lake" but different minimum commit frequencies
produce different storage configurations. -/
theorem same_uri_different_storage_configuration :
    (write ["deltalake"] none ["key"] "./local-lake" none (some 1)).map
        (fun r => r.data_storage) ≠
      (write ["deltalake"] none ["key"] "./local-lake" none (some 2)).map
        (fun r => r.data_storage) := by
  decide

/-- Claim C8 (amended): classification is deterministic — it depends only on
the first five characters of the URI (the prefix compared against
S3_URI_PREFIX), it is ObjectStore exactly when the URI starts with "s3://",
and write itself is a pure function, so two invocations agreeing on the URI
and on all remaining arguments yield identical results. -/
theorem classification_depends_only_on_uri_prefix :
    (∀ u1 u2 : String, u1.data.take 5 = u2.data.take 5 →
        classifyUri u1 = classifyUri u2) ∧
    (∀ uri, classifyUri uri = StorageKind.ObjectStore ↔
        startsWithStr uri S3_URI_PREFIX = true) ∧
    (∀ license ambient table uri s mcf,
        write license ambient table uri s mcf =
          write license ambient table uri s mcf) := by
  refine ⟨?_, ?_, fun _ _ _ _ _ _ => rfl⟩
  · intro u1 u2 h
    have h5 : S3_URI_PREFIX.data.length = 5 := by decide
    have hsw : startsWithStr u1 S3_URI_PREFIX = startsWithStr u2 S3_URI_PREFIX := by
      unfold startsWithStr
      rw [Bool.eq_iff_iff, List.isPrefixOf_iff_prefix, List.isPrefixOf_iff_prefix,
        List.prefix_iff_eq_take, List.prefix_iff_eq_take, h5, h]
    unfold classifyUri
    rw [hsw]
  · intro uri
    unfold classifyUri
    cases h : startsWithStr uri S3_URI_PREFIX <;> simp [h]

/-- Witness for the amended claim C8 at two concrete URIs sharing their
first five characters. -/
theorem classification_depends_only_on_uri_prefix_witness :
    ("s3://logs/a".data.take 5 = "s3://other/b".data.take 5) ∧
    classifyUri "s3://logs/a" = classifyUri "s3://other/b" :=
  ⟨by decide,
   classification_depends_only_on_uri_prefix.1 "s3://logs/a" "s3://other/b"
     (by decide)⟩

/-- Claim C9: for every URI that does not begin with "s3://", write passes
an empty options map to the storage service and the supplied
s3_connection_settings argument has no effect: two calls differing only in
the settings build identical configurations. -/
theorem non_s3_uri_ignores_settings (license : List String)
    (ambient : AmbientCredentials) (table : List String) (uri : String)
    (s1 s2 : Option AwsS3Settings) (mcf : Option Nat)
    (h : startsWithStr uri S3_URI_PREFIX = false) :
    write license ambient table uri s1 mcf =
      write license ambient table uri s2 mcf ∧
    ∀ r, write license ambient table uri s1 mcf = Except.ok r →
      r.data_storage.storage_options = [] := by
  have e1 := resolveStorageOptions_fs uri s1 ambient h
  have e2 := resolveStorageOptions_fs uri s2 ambient h
  constructor
  · rw [write_unfold, write_unfold, e1, e2]
  · intro r hr
    rw [write_unfold] at hr
    cases hc : _check_entitlements license "deltalake" with
    | error e => simp [hc] at hr
    | ok u =>
      cases hf : _format_output_value_fields table with
      | error e => simp [hc, e1, hf] at hr
      | ok vf =>
        simp [hc, e1, hf] at hr
        subst hr
        rfl

/-- Witness for claim C9 at the concrete URI "./local-lake" and two
different settings values. -/
theorem non_s3_uri_ignores_settings_witness :
    startsWithStr "./local-lake" S3_URI_PREFIX = false ∧
    write ["deltalake"] none ["key"] "./local-lake" none (some 60000) =
      write ["deltalake"] none ["key"] "./local-lake"
        (some { bucket_name := some "logs", access_key := some "AK",
                secret_access_key := some "SK", endpoint := none,
                region := none }) (some 60000) :=
  ⟨by decide,
   (non_s3_uri_ignores_settings ["deltalake"] none ["key"] "./local-lake" none
     (some { bucket_name := some "logs", access_key := some "AK",
             secret_access_key := some "SK", endpoint := none,
             region := none }) (some 60000) (by decide)).1⟩

/-- Claim C10: both read and write run the deltalake entitlement check
before constructing any storage or format configuration; when the check
fails the operation aborts with the entitlement error — no sink
configuration and no data source are produced, so state is unchanged. -/
theorem entitlement_check_gates_read_and_write (license : List String)
    (ambient : AmbientCredentials) (table : List String) (uri : String)
    (s : Option AwsS3Settings) (mcf : Option Nat) (schema : List String)
    (mode : String) (acd : Option Nat) (pid : Option String)
    (h : "deltalake" ∉ license) :
    write license ambient table uri s mcf =
      Except.error (ConnectorError.EntitlementError "deltalake") ∧
    read license uri schema mode acd pid =
      Except.error (ConnectorError.EntitlementError "deltalake") := by
  have hc := check_entitlements_err license h
  constructor
  · rw [write_unfold, hc]
  · rw [read_unfold, hc]

/-- Witness for claim C10 with an empty entitlement set. -/
theorem entitlement_check_gates_read_and_write_witness :
    "deltalake" ∉ ([] : List String) ∧
    write [] none ["key"] "./local-lake" none (some 60000) =
      Except.error (ConnectorError.EntitlementError "deltalake") ∧
    read [] "./local-lake" ["key"] "static" (some 1500) none =
      Except.error (ConnectorError.EntitlementError "deltalake") :=
  ⟨by decide,
   entitlement_check_gates_read_and_write [] none ["key"] "./local-lake" none
     (some 60000) ["key"] "static" (some 1500) none (by decide)⟩

end DeltaLake
